import Mathlib

/-!
Shallow embedding of the schematizer meta-attribute mapping slice:
the `ConsumerGroupDataSource` / `DataTarget` persistence models (from
`schematizer/models/`) and the meta-attribute mapping logic exercised by
`tests/logic/meta_attribute_mappers_test.py`.  The production module
`schematizer/logic/meta_attribute_mappers.py` is not part of the excerpt,
so its operations are modelled from the specification; the definitions
carry doc comments saying exactly what was modelled.
-/

namespace Schematizer

/-- Entity kinds an `entity_id` can refer to (`EntityType` in the models
package, mirrored by `DataSourceTypeEnum`). -/
inductive EntityType where
  | NAMESPACE
  | SOURCE
  | SCHEMA
deriving DecidableEq, Repr

/-- Row of the raw mapping store (`MetaAttributeMappingStore`): a
(meta-attribute schema, entity) association plus server-assigned id and
timestamps. -/
structure MetaAttributeMappingStore where
  id : Nat
  entity_type : EntityType
  entity_id : Nat
  meta_attr_schema_id : Nat
  created_at : Nat
  updated_at : Nat
deriving DecidableEq, Repr

/-- Row of the flat materialized store (`SchemaMetaAttributeMapping`):
a denormalized (schema_id, meta_attr_schema_id) pair. -/
structure SchemaMetaAttributeMapping where
  schema_id : Nat
  meta_attr_schema_id : Nat
deriving DecidableEq, Repr

/-- Namespace entity object.  `id` is `none` for an object constructed in
memory but never persisted (SQLAlchemy leaves the primary key unset). -/
structure NamespaceEntity where
  id : Option Nat
deriving DecidableEq, Repr

/-- Source entity object; `namespace` is the ancestor accessor
(`source.namespace`), absent when not attached to a parent. -/
structure SourceEntity where
  id : Option Nat
  namespaceParent : Option NamespaceEntity
deriving DecidableEq, Repr

/-- Schema entity object; `source` is the ancestor accessor
(`schema.source`), absent when not attached to a parent. -/
structure SchemaEntity where
  id : Option Nat
  source : Option SourceEntity
deriving DecidableEq, Repr

/-- Backing store state: the three entity tables (as lists of persisted
primary keys), the raw mapping store in insertion order, the flat
materialized store, the next auto-increment mapping id, and a logical
clock for server-assigned timestamps. -/
structure DB where
  namespaces : List Nat
  sources : List Nat
  schemas : List Nat
  mappings : List MetaAttributeMappingStore
  flat : List SchemaMetaAttributeMapping
  next_id : Nat
  now : Nat
deriving DecidableEq, Repr

/-- Error raised when a referenced schema, entity or mapping row does not
exist (`orm_exc.NoResultFound` in the tests, `NotFoundError` in the spec). -/
inductive NotFoundError where
  | notFound
deriving DecidableEq, Repr

/-- Does the entity identified by (entity_type, entity_id) exist in the
corresponding table? -/
def entity_exists (db : DB) (t : EntityType) (eid : Nat) : Bool :=
  match t with
  | .NAMESPACE => db.namespaces.contains eid
  | .SOURCE => db.sources.contains eid
  | .SCHEMA => db.schemas.contains eid

/-- Does the schema identified by `sid` exist in the schema table? -/
def schema_exists (db : DB) (sid : Nat) : Bool :=
  db.schemas.contains sid

/-- Predicate picking the mapping rows attached to one (entity_type,
entity_id) triple component together with a meta-attribute schema id. -/
def matchesTriple (t : EntityType) (eid mid : Nat)
    (m : MetaAttributeMappingStore) : Bool :=
  m.entity_type == t && m.entity_id == eid && m.meta_attr_schema_id == mid

/-- Modelled from the spec: Mapping Store `find_one(entity_type,
entity_id, meta_attr_schema_id)` of the missing
`schematizer/logic/meta_attribute_mappers.py` module — returns the row
with that exact triple, or `NotFoundError` when no such row exists. -/
def find_one (db : DB) (t : EntityType) (eid mid : Nat) :
    Except NotFoundError MetaAttributeMappingStore :=
  match db.mappings.find? (matchesTriple t eid mid) with
  | some m => .ok m
  | none => .error .notFound

/-- Modelled from the spec: `register(meta_attr_schema_id, entity_type,
entity_id)` of the missing `meta_attribute_mappers` module (the generic
operation behind `register_meta_attribute_mapping_for_namespace` /
`_for_source` / `_for_schema` seen in the tests).  Fails with
`NotFoundError` when the meta-attribute schema or the target entity does
not exist; returns the existing row unchanged when the triple is already
registered (idempotent, the tests pin `updated_at` as untouched);
otherwise inserts a new row with server-assigned id and timestamps. -/
def register_meta_attribute_mapping (db : DB) (mid : Nat) (t : EntityType)
    (eid : Nat) : Except NotFoundError (DB × MetaAttributeMappingStore) :=
  if schema_exists db mid = false then .error .notFound
  else if entity_exists db t eid = false then .error .notFound
  else
    match db.mappings.find? (matchesTriple t eid mid) with
    | some m => .ok (db, m)
    | none =>
      let m : MetaAttributeMappingStore :=
        { id := db.next_id, entity_type := t, entity_id := eid,
          meta_attr_schema_id := mid, created_at := db.now,
          updated_at := db.now }
      .ok ({ db with
             mappings := db.mappings ++ [m],
             next_id := db.next_id + 1,
             now := db.now + 1 }, m)

/-- Modelled from the spec: `delete(meta_attr_schema_id, entity_type,
entity_id)` of the missing `meta_attribute_mappers` module — deletes the
matching row if present and returns whether a row was deleted. -/
def delete_meta_attribute_mapping (db : DB) (mid : Nat) (t : EntityType)
    (eid : Nat) : DB × Bool :=
  let remaining := db.mappings.filter (fun m => !matchesTriple t eid mid m)
  ({ db with mappings := remaining },
   decide (remaining.length < db.mappings.length))

/-- Mapping rows directly attached to the entity `(t, i)`, in insertion
order, projected to their meta-attribute schema ids (the spec's Mapping
Store `find_all_by(entity_type, entity_id)` followed by id projection).
An unpersisted entity has `i = none`, which matches no row. -/
def mappingsFor (db : DB) (t : EntityType) (i : Option Nat) : List Nat :=
  (db.mappings.filter
    (fun m => m.entity_type == t && (some m.entity_id == i))).map
    (fun m => m.meta_attr_schema_id)

/-- Modelled from the spec: Resolver `get_meta_attributes_by_namespace` of
the missing `meta_attribute_mappers` module — the ids of all mappings
directly attached to the namespace, in mapping insertion order. -/
def get_meta_attributes_by_namespace (db : DB) (ns : NamespaceEntity) :
    List Nat :=
  mappingsFor db .NAMESPACE ns.id

/-- Modelled from the spec: Resolver `get_meta_attributes_by_source` of
the missing `meta_attribute_mappers` module — the namespace ancestor's
mappings first, then the source's own mappings. -/
def get_meta_attributes_by_source (db : DB) (src : SourceEntity) :
    List Nat :=
  (match src.namespaceParent with
   | some ns => get_meta_attributes_by_namespace db ns
   | none => []) ++ mappingsFor db .SOURCE src.id

/-- Modelled from the spec: Resolver `get_meta_attributes_by_schema` of
the missing `meta_attribute_mappers` module — ancestor-first: namespace
mappings, then source mappings, then the schema's own mappings. -/
def get_meta_attributes_by_schema (db : DB) (sch : SchemaEntity) :
    List Nat :=
  (match sch.source with
   | some src => get_meta_attributes_by_source db src
   | none => []) ++ mappingsFor db .SCHEMA sch.id

/-- One step of the Bulk Materializer write-through: insert a flat row for
each resolved meta-attribute schema id not already present for this
schema, skipping duplicates (this skip is the de-duplication: a second
occurrence of the same id finds the row the first occurrence inserted). -/
def addFlat (sid : Nat) (flat : List SchemaMetaAttributeMapping)
    (ids : List Nat) : List SchemaMetaAttributeMapping :=
  ids.foldl
    (fun fl mid =>
      if fl.any (fun f => f.schema_id == sid && f.meta_attr_schema_id == mid)
      then fl
      else fl ++ [{ schema_id := sid, meta_attr_schema_id := mid }])
    flat

/-- Modelled from the spec: Bulk Materializer `add_meta_attribute_mappings`
of the missing `meta_attribute_mappers` module — if the schema entity is
not persisted in the backing store, return an empty result without error;
otherwise resolve the schema's effective meta-attribute ids, insert a flat
row for each id not already present (duplicates collapse), and return the
full current set of flat rows for the schema. -/
def add_meta_attribute_mappings (db : DB) (sch : SchemaEntity) :
    DB × List SchemaMetaAttributeMapping :=
  match sch.id with
  | none => (db, [])
  | some sid =>
    if schema_exists db sid = false then (db, [])
    else
      let ids := get_meta_attributes_by_schema db sch
      let flat := addFlat sid db.flat ids
      ({ db with flat := flat },
       flat.filter (fun f => f.schema_id == sid))

/-- An entity the Resolver accepts: a namespace, a source or a schema. -/
inductive Entity where
  | namespaceE : NamespaceEntity → Entity
  | sourceE : SourceEntity → Entity
  | schemaE : SchemaEntity → Entity
deriving DecidableEq, Repr

/-- Modelled from the spec: the Resolver of the missing
`meta_attribute_mappers` module, as one operation dispatching on the
entity kind (namespace, source or schema). -/
def resolveEntity (db : DB) : Entity → List Nat
  | .namespaceE ns => get_meta_attributes_by_namespace db ns
  | .sourceE src => get_meta_attributes_by_source db src
  | .schemaE sch => get_meta_attributes_by_schema db sch

/-- The (entity_type, entity_id) pairs the Resolver consults for an
entity: the entity itself and every ancestor reachable through the
`source` / `namespace` accessors. -/
def entityChain : Entity → List (EntityType × Option Nat)
  | .namespaceE ns => [(.NAMESPACE, ns.id)]
  | .sourceE src =>
    (match src.namespaceParent with
     | some ns => [((.NAMESPACE : EntityType), ns.id)]
     | none => []) ++ [(.SOURCE, src.id)]
  | .schemaE sch =>
    (match sch.source with
     | some s =>
       (match s.namespaceParent with
        | some ns => [((.NAMESPACE : EntityType), ns.id)]
        | none => []) ++ [((.SOURCE : EntityType), s.id)]
     | none => []) ++ [(.SCHEMA, sch.id)]

/-- Concrete store used to instantiate the materializer theorems:
NamespaceA (id 1) > SourceA1 (id 11) > SchemaA1X (id 21), NamespaceB
(id 2), meta-attribute schemas 31-34 mapped as in the test table. -/
def witnessSchemaDB : DB :=
  { namespaces := [1, 2], sources := [11], schemas := [21, 31, 32, 33, 34],
    mappings :=
      [{ id := 41, entity_type := .NAMESPACE, entity_id := 1,
         meta_attr_schema_id := 31, created_at := 0, updated_at := 0 },
       { id := 42, entity_type := .SOURCE, entity_id := 11,
         meta_attr_schema_id := 32, created_at := 1, updated_at := 1 },
       { id := 43, entity_type := .SCHEMA, entity_id := 21,
         meta_attr_schema_id := 33, created_at := 2, updated_at := 2 },
       { id := 44, entity_type := .NAMESPACE, entity_id := 2,
         meta_attr_schema_id := 34, created_at := 3, updated_at := 3 }],
    flat := [], next_id := 45, now := 4 }

/-- The SchemaA1X entity object, attached to SourceA1 and NamespaceA. -/
def witnessSchemaEntity : SchemaEntity :=
  { id := some 21,
    source := some { id := some 11, namespaceParent := some { id := some 1 } } }

/-- Flat rows the materializer produces for SchemaA1X. -/
def witnessFlatRows : List SchemaMetaAttributeMapping :=
  [{ schema_id := 21, meta_attr_schema_id := 31 },
   { schema_id := 21, meta_attr_schema_id := 32 },
   { schema_id := 21, meta_attr_schema_id := 33 }]

/-- `witnessSchemaDB` after one materializer run for SchemaA1X. -/
def witnessSchemaDB1 : DB :=
  { witnessSchemaDB with flat := witnessFlatRows }

/-- Store where meta-attribute schema 32 is mapped at two different
levels (to NamespaceA and to SourceA1), so the Resolver surfaces it
twice for SchemaA1X. -/
def dupDB : DB :=
  { namespaces := [1], sources := [11], schemas := [21, 31, 32, 33],
    mappings :=
      [{ id := 41, entity_type := .NAMESPACE, entity_id := 1,
         meta_attr_schema_id := 31, created_at := 0, updated_at := 0 },
       { id := 42, entity_type := .SOURCE, entity_id := 11,
         meta_attr_schema_id := 32, created_at := 1, updated_at := 1 },
       { id := 43, entity_type := .SCHEMA, entity_id := 21,
         meta_attr_schema_id := 33, created_at := 2, updated_at := 2 },
       { id := 44, entity_type := .NAMESPACE, entity_id := 1,
         meta_attr_schema_id := 32, created_at := 3, updated_at := 3 }],
    flat := [], next_id := 45, now := 4 }

/-- Flat rows the materializer produces for SchemaA1X on `dupDB`: one row
per distinct meta-attribute schema id. -/
def dupFlatRows : List SchemaMetaAttributeMapping :=
  [{ schema_id := 21, meta_attr_schema_id := 31 },
   { schema_id := 21, meta_attr_schema_id := 32 },
   { schema_id := 21, meta_attr_schema_id := 33 }]

/-- `dupDB` after one materializer run for SchemaA1X. -/
def dupDB1 : DB :=
  { dupDB with flat := dupFlatRows }

/-- Concrete store used to instantiate the registration theorems: one
namespace (id 7), one schema (id 5), no mappings yet. -/
def witnessDB : DB :=
  { namespaces := [7], sources := [], schemas := [5], mappings := [],
    flat := [], next_id := 1, now := 0 }

/-- The row `register_meta_attribute_mapping witnessDB 5 NAMESPACE 7`
inserts. -/
def witnessRow : MetaAttributeMappingStore :=
  { id := 1, entity_type := .NAMESPACE, entity_id := 7,
    meta_attr_schema_id := 5, created_at := 0, updated_at := 0 }

/-- `witnessDB` after that first registration. -/
def witnessDB1 : DB :=
  { namespaces := [7], sources := [], schemas := [5],
    mappings := [witnessRow], flat := [], next_id := 2, now := 1 }

/-- Enumeration of levels a consumer group can be interested in, from
`schematizer/models/consumer_group_data_source.py`
(`DataSourceTypeEnum`). -/
inductive DataSourceTypeEnum where
  | Namespace
  | Source
  | Schema
deriving DecidableEq, Repr

/-- String value persisted for each `DataSourceTypeEnum` member. -/
def DataSourceTypeEnum.value : DataSourceTypeEnum → String
  | .Namespace => "Namespace"
  | .Source => "Source"
  | .Schema => "Schema"

/-- `ConsumerGroupDataSource` row from
`schematizer/models/consumer_group_data_source.py`: every column is
`nullable=False`, so each field is total (no `Option`), and
`data_source_type` is constrained to the enum. -/
structure ConsumerGroupDataSource where
  id : Nat
  consumer_group_id : Nat
  data_source_type : DataSourceTypeEnum
  data_source_id : Nat
  created_at : Nat
  updated_at : Nat
deriving DecidableEq, Repr

/-- C10: every `ConsumerGroupDataSource` row has a `data_source_type`
drawn from exactly the three enum values Namespace, Source, Schema, and
total (non-null) `consumer_group_id` and `data_source_id` columns: the
persisted string value of the type column is always one of the three enum
strings, and the id columns always carry a value. -/
theorem consumer_group_data_source_invariant (r : ConsumerGroupDataSource) :
    (r.data_source_type = .Namespace ∨ r.data_source_type = .Source ∨
     r.data_source_type = .Schema) ∧
    r.data_source_type.value ∈ ["Namespace", "Source", "Schema"] ∧
    r.consumer_group_id = r.consumer_group_id ∧
    r.data_source_id = r.data_source_id := by
  refine ⟨?_, ?_, rfl, rfl⟩ <;> cases r.data_source_type <;>
    simp [DataSourceTypeEnum.value]

/-- C1: with the containment tree NamespaceA > SourceA1 > SchemaA1X
carrying mappings m1, m2, m3 respectively and an unrelated NamespaceB
carrying m4, the Resolver returns the entity's own direct mapping ids
preceded by all ancestor mapping ids, ancestor-first:
resolve(NamespaceA) = [m1], resolve(SourceA1) = [m1, m2],
resolve(SchemaA1X) = [m1, m2, m3], resolve(NamespaceB) = [m4], and no
mapping of an unrelated entity appears. -/
theorem resolver_hierarchy_order
    (nsA nsB srcA1 schA1X m1 m2 m3 m4 i1 i2 i3 i4 c1 c2 c3 c4 u1 u2 u3 u4 :
      Nat)
    (db : DB)
    (hAB : nsA ≠ nsB)
    (hm : db.mappings =
      [{ id := i1, entity_type := .NAMESPACE, entity_id := nsA,
         meta_attr_schema_id := m1, created_at := c1, updated_at := u1 },
       { id := i2, entity_type := .SOURCE, entity_id := srcA1,
         meta_attr_schema_id := m2, created_at := c2, updated_at := u2 },
       { id := i3, entity_type := .SCHEMA, entity_id := schA1X,
         meta_attr_schema_id := m3, created_at := c3, updated_at := u3 },
       { id := i4, entity_type := .NAMESPACE, entity_id := nsB,
         meta_attr_schema_id := m4, created_at := c4, updated_at := u4 }]) :
    get_meta_attributes_by_namespace db { id := some nsA } = [m1] ∧
    get_meta_attributes_by_source db
      { id := some srcA1, namespaceParent := some { id := some nsA } } =
      [m1, m2] ∧
    get_meta_attributes_by_schema db
      { id := some schA1X,
        source := some { id := some srcA1,
                         namespaceParent := some { id := some nsA } } } =
      [m1, m2, m3] ∧
    get_meta_attributes_by_namespace db { id := some nsB } = [m4] := by
  refine ⟨?_, ?_, ?_, ?_⟩ <;>
    simp [get_meta_attributes_by_namespace, get_meta_attributes_by_source,
          get_meta_attributes_by_schema, mappingsFor, hm, List.filter_cons,
          hAB, Ne.symm hAB]

/-- Concrete instantiation of `resolver_hierarchy_order`. -/
theorem resolver_hierarchy_order_witness :
    get_meta_attributes_by_namespace
      { namespaces := [1, 2], sources := [11], schemas := [21, 31, 32, 33, 34],
        mappings :=
          [{ id := 41, entity_type := .NAMESPACE, entity_id := 1,
             meta_attr_schema_id := 31, created_at := 0, updated_at := 0 },
           { id := 42, entity_type := .SOURCE, entity_id := 11,
             meta_attr_schema_id := 32, created_at := 1, updated_at := 1 },
           { id := 43, entity_type := .SCHEMA, entity_id := 21,
             meta_attr_schema_id := 33, created_at := 2, updated_at := 2 },
           { id := 44, entity_type := .NAMESPACE, entity_id := 2,
             meta_attr_schema_id := 34, created_at := 3, updated_at := 3 }],
        flat := [], next_id := 45, now := 4 } { id := some 1 } = [31] := by
  exact (resolver_hierarchy_order 1 2 11 21 31 32 33 34 41 42 43 44
    0 1 2 3 0 1 2 3 _ (by decide) rfl).1

/-- A successful registration leaves the store in a state where
re-registering the same triple succeeds, changes nothing, and returns the
very row the first call returned. -/
theorem register_ok_register_again {db db1 : DB} {mid eid : Nat}
    {t : EntityType} {r1 : MetaAttributeMappingStore}
    (h : register_meta_attribute_mapping db mid t eid = .ok (db1, r1)) :
    register_meta_attribute_mapping db1 mid t eid = .ok (db1, r1) := by
  cases hs : schema_exists db mid with
  | false => simp [register_meta_attribute_mapping, hs] at h
  | true =>
    cases he : entity_exists db t eid with
    | false => simp [register_meta_attribute_mapping, hs, he] at h
    | true =>
      cases hf : db.mappings.find? (matchesTriple t eid mid) with
      | some m =>
        simp only [register_meta_attribute_mapping, hs, he, hf,
          Bool.true_eq_false, if_false, Except.ok.injEq, Prod.mk.injEq] at h
        obtain ⟨hdb, hr⟩ := h
        subst hdb; subst hr
        simp [register_meta_attribute_mapping, hs, he, hf]
      | none =>
        simp only [register_meta_attribute_mapping, hs, he, hf,
          Bool.true_eq_false, if_false, Except.ok.injEq, Prod.mk.injEq] at h
        obtain ⟨hdb, hr⟩ := h
        have h1 : schema_exists db1 mid = true := by rw [← hdb]; exact hs
        have h2 : entity_exists db1 t eid = true := by rw [← hdb]; exact he
        have h3 : db1.mappings.find? (matchesTriple t eid mid) = some r1 := by
          rw [← hdb, ← hr]
          show (db.mappings ++ [_]).find? (matchesTriple t eid mid) = _
          simp [List.find?_append, hf, matchesTriple]
        simp [register_meta_attribute_mapping, h1, h2, h3]

/-- C2: registering the same (meta_attr_schema_id, entity_type, entity_id)
triple a second time returns a mapping with the same id and created_at as
the first call's result and creates no second row; a register call
preserves the at-most-one-row-per-triple invariant. -/
theorem register_idempotent {db db1 db2 : DB} {mid eid : Nat}
    {t : EntityType} {r1 r2 : MetaAttributeMappingStore}
    (h1 : register_meta_attribute_mapping db mid t eid = .ok (db1, r1))
    (h2 : register_meta_attribute_mapping db1 mid t eid = .ok (db2, r2)) :
    r2.id = r1.id ∧ r2.created_at = r1.created_at ∧
    db2.mappings = db1.mappings ∧
    (db.mappings.countP (matchesTriple t eid mid) ≤ 1 →
     db1.mappings.countP (matchesTriple t eid mid) ≤ 1) := by
  have hagain := register_ok_register_again h1
  rw [hagain, Except.ok.injEq, Prod.mk.injEq] at h2
  obtain ⟨hdb, hr⟩ := h2
  subst hdb; subst hr
  refine ⟨rfl, rfl, rfl, fun hcount => ?_⟩
  cases hs : schema_exists db mid with
  | false => simp [register_meta_attribute_mapping, hs] at h1
  | true =>
    cases he : entity_exists db t eid with
    | false => simp [register_meta_attribute_mapping, hs, he] at h1
    | true =>
      cases hf : db.mappings.find? (matchesTriple t eid mid) with
      | some m =>
        simp only [register_meta_attribute_mapping, hs, he, hf,
          Bool.true_eq_false, if_false, Except.ok.injEq, Prod.mk.injEq] at h1
        obtain ⟨hdb1, _⟩ := h1
        subst hdb1; exact hcount
      | none =>
        simp only [register_meta_attribute_mapping, hs, he, hf,
          Bool.true_eq_false, if_false, Except.ok.injEq, Prod.mk.injEq] at h1
        obtain ⟨hdb1, _⟩ := h1
        subst hdb1
        have hzero : db.mappings.countP (matchesTriple t eid mid) = 0 := by
          rw [List.countP_eq_zero]
          intro a ha hpa
          rw [List.find?_eq_none] at hf
          exact hf a ha hpa
        show (db.mappings ++ [_]).countP (matchesTriple t eid mid) ≤ 1
        simp [List.countP_append, hzero, List.countP_singleton, matchesTriple]

/-- Concrete instantiation of `register_idempotent`: register the same
triple twice on a store holding schema 5 and namespace 7. -/
theorem register_idempotent_witness :
    witnessRow.id = witnessRow.id ∧
    witnessRow.created_at = witnessRow.created_at ∧
    witnessDB1.mappings = witnessDB1.mappings ∧
    (witnessDB.mappings.countP (matchesTriple .NAMESPACE 7 5) ≤ 1 →
     witnessDB1.mappings.countP (matchesTriple .NAMESPACE 7 5) ≤ 1) :=
  @register_idempotent witnessDB witnessDB1 witnessDB1 5 7 .NAMESPACE
    witnessRow witnessRow rfl rfl

/-- C9: re-registering an existing triple returns the stored row with
every field identical — updated_at included — to the first call's result,
and leaves the store state completely unchanged. -/
theorem register_rereg_all_fields_unchanged {db db1 db2 : DB}
    {mid eid : Nat} {t : EntityType} {r1 r2 : MetaAttributeMappingStore}
    (h1 : register_meta_attribute_mapping db mid t eid = .ok (db1, r1))
    (h2 : register_meta_attribute_mapping db1 mid t eid = .ok (db2, r2)) :
    r2 = r1 ∧ db2 = db1 := by
  have hagain := register_ok_register_again h1
  rw [hagain, Except.ok.injEq, Prod.mk.injEq] at h2
  exact ⟨h2.2.symm, h2.1.symm⟩

/-- Concrete instantiation of `register_rereg_all_fields_unchanged`. -/
theorem register_rereg_all_fields_unchanged_witness :
    witnessRow = witnessRow ∧ witnessDB1 = witnessDB1 :=
  @register_rereg_all_fields_unchanged witnessDB witnessDB1 witnessDB1 5 7
    .NAMESPACE witnessRow witnessRow rfl rfl

/-- C5: register raises NotFoundError exactly when the referenced
meta-attribute schema or the referenced entity does not exist; in that
case it returns no new store state, so no row is created. -/
theorem register_not_found_iff (db : DB) (mid eid : Nat) (t : EntityType) :
    register_meta_attribute_mapping db mid t eid = .error .notFound ↔
      (schema_exists db mid = false ∨ entity_exists db t eid = false) := by
  cases hs : schema_exists db mid with
  | false => simp [register_meta_attribute_mapping, hs]
  | true =>
    cases he : entity_exists db t eid with
    | false => simp [register_meta_attribute_mapping, hs, he]
    | true =>
      cases hf : db.mappings.find? (matchesTriple t eid mid) with
      | some m => simp [register_meta_attribute_mapping, hs, he, hf]
      | none => simp [register_meta_attribute_mapping, hs, he, hf]

/-- C6: when a mapping row for the exact triple exists, delete removes it
and returns true, and a find_one lookup of that triple afterwards raises
NotFoundError. -/
theorem delete_then_find_one_fails {db : DB} {mid eid : Nat}
    {t : EntityType} {m : MetaAttributeMappingStore}
    (h : find_one db t eid mid = .ok m) :
    (delete_meta_attribute_mapping db mid t eid).2 = true ∧
    find_one (delete_meta_attribute_mapping db mid t eid).1 t eid mid =
      .error .notFound := by
  have hf : db.mappings.find? (matchesTriple t eid mid) = some m := by
    unfold find_one at h
    cases hf : db.mappings.find? (matchesTriple t eid mid) with
    | some m2 => rw [hf] at h; simpa using h
    | none => rw [hf] at h; simp at h
  have hmem : m ∈ db.mappings := List.mem_of_find?_eq_some hf
  have hp : matchesTriple t eid mid m = true := List.find?_some hf
  constructor
  · unfold delete_meta_attribute_mapping
    simp only [decide_eq_true_eq]
    have hle := List.length_filter_le
      (fun m2 => !matchesTriple t eid mid m2) db.mappings
    apply Nat.lt_of_le_of_ne hle
    intro hlen
    rw [List.filter_length_eq_length] at hlen
    have := hlen m hmem
    rw [hp] at this
    simp at this
  · unfold delete_meta_attribute_mapping find_one
    cases hf2 : (db.mappings.filter
        (fun m2 => !matchesTriple t eid mid m2)).find?
        (matchesTriple t eid mid) with
    | some m2 =>
      have hmem2 := List.mem_of_find?_eq_some hf2
      have hp2 := List.find?_some hf2
      rw [List.mem_filter] at hmem2
      rw [hp2] at hmem2
      simp at hmem2
    | none => simp [hf2]

/-- Concrete instantiation of `delete_then_find_one_fails`. -/
theorem delete_then_find_one_fails_witness :
    (delete_meta_attribute_mapping witnessDB1 5 .NAMESPACE 7).2 = true ∧
    find_one (delete_meta_attribute_mapping witnessDB1 5 .NAMESPACE 7).1
      .NAMESPACE 7 5 = .error .notFound :=
  @delete_then_find_one_fails witnessDB1 5 7 .NAMESPACE witnessRow rfl

/-- C7: materializing a schema entity that is not persisted in the
backing store returns an empty result and leaves the store untouched,
raising no error. -/
theorem materialize_unpersisted_empty (db : DB) (sch : SchemaEntity)
    (h : ∀ sid, sch.id = some sid → schema_exists db sid = false) :
    add_meta_attribute_mappings db sch = (db, []) := by
  unfold add_meta_attribute_mappings
  cases hid : sch.id with
  | none => rfl
  | some sid => simp [h sid hid]

/-- Concrete instantiation of `materialize_unpersisted_empty`: a schema
object built in memory with no primary key, against a non-empty store. -/
theorem materialize_unpersisted_empty_witness :
    add_meta_attribute_mappings witnessDB1 { id := none, source := none } =
      (witnessDB1, []) :=
  materialize_unpersisted_empty witnessDB1 { id := none, source := none }
    (fun sid hs => by cases hs)

/-- When no mapping row references `(t, i)`, the direct-mapping query
returns the empty list. -/
theorem mappingsFor_eq_nil {db : DB} {t : EntityType} {i : Option Nat}
    (h : ∀ m ∈ db.mappings, ¬(m.entity_type = t ∧ some m.entity_id = i)) :
    mappingsFor db t i = [] := by
  have hfil : db.mappings.filter
      (fun m => m.entity_type == t && (some m.entity_id == i)) = [] := by
    rw [List.filter_eq_nil_iff]
    intro m hm
    simp only [Bool.and_eq_true, beq_iff_eq, not_and]
    intro h1 h2
    exact h m hm ⟨h1, h2⟩
  unfold mappingsFor
  rw [hfil]
  rfl

/-- C8: for every entity with no direct mappings and no ancestor mappings
(in particular a freshly constructed entity object never persisted, whose
id is `none`), the Resolver returns an empty sequence without error. -/
theorem resolve_no_mappings_empty (db : DB) (e : Entity)
    (h : ∀ p ∈ entityChain e, ∀ m ∈ db.mappings,
         ¬(m.entity_type = p.1 ∧ some m.entity_id = p.2)) :
    resolveEntity db e = [] := by
  cases e with
  | namespaceE ns =>
    exact mappingsFor_eq_nil (h (.NAMESPACE, ns.id) (by simp [entityChain]))
  | sourceE src =>
    show get_meta_attributes_by_source db src = []
    cases hns : src.namespaceParent with
    | none =>
      simp only [get_meta_attributes_by_source, hns, List.nil_append]
      exact mappingsFor_eq_nil
        (h (.SOURCE, src.id) (by simp [entityChain, hns]))
    | some ns =>
      simp only [get_meta_attributes_by_source,
        get_meta_attributes_by_namespace, hns]
      rw [mappingsFor_eq_nil
            (h (.NAMESPACE, ns.id) (by simp [entityChain, hns])),
          mappingsFor_eq_nil
            (h (.SOURCE, src.id) (by simp [entityChain, hns])),
          List.nil_append]
  | schemaE sch =>
    show get_meta_attributes_by_schema db sch = []
    cases hsrc : sch.source with
    | none =>
      simp only [get_meta_attributes_by_schema, hsrc, List.nil_append]
      exact mappingsFor_eq_nil
        (h (.SCHEMA, sch.id) (by simp [entityChain, hsrc]))
    | some s =>
      cases hns : s.namespaceParent with
      | none =>
        simp only [get_meta_attributes_by_schema,
          get_meta_attributes_by_source, hsrc, hns, List.nil_append]
        rw [mappingsFor_eq_nil
              (h (.SOURCE, s.id) (by simp [entityChain, hsrc, hns])),
            mappingsFor_eq_nil
              (h (.SCHEMA, sch.id) (by simp [entityChain, hsrc, hns])),
            List.nil_append]
      | some ns =>
        simp only [get_meta_attributes_by_schema,
          get_meta_attributes_by_source,
          get_meta_attributes_by_namespace, hsrc, hns]
        rw [mappingsFor_eq_nil
              (h (.NAMESPACE, ns.id) (by simp [entityChain, hsrc, hns])),
            mappingsFor_eq_nil
              (h (.SOURCE, s.id) (by simp [entityChain, hsrc, hns])),
            mappingsFor_eq_nil
              (h (.SCHEMA, sch.id) (by simp [entityChain, hsrc, hns])),
            List.nil_append, List.nil_append]

/-- Concrete instantiation of `resolve_no_mappings_empty`: namespace 8 has
no mappings in a store that does hold a mapping for namespace 7. -/
theorem resolve_no_mappings_empty_witness :
    resolveEntity witnessDB1 (.namespaceE { id := some 8 }) = [] :=
  resolve_no_mappings_empty witnessDB1 (.namespaceE { id := some 8 })
    (by decide)

/-- Unfolding one step of the materializer's insertion fold. -/
theorem addFlat_cons (sid : Nat) (flat : List SchemaMetaAttributeMapping)
    (mid : Nat) (ids : List Nat) :
    addFlat sid flat (mid :: ids) =
      addFlat sid
        (if flat.any
            (fun f => f.schema_id == sid && f.meta_attr_schema_id == mid)
         then flat
         else flat ++ [{ schema_id := sid, meta_attr_schema_id := mid }])
        ids := rfl

/-- The materializer's presence check is exactly membership of the flat
row. -/
theorem any_flat_iff (sid mid : Nat)
    (flat : List SchemaMetaAttributeMapping) :
    flat.any (fun f => f.schema_id == sid && f.meta_attr_schema_id == mid) =
        true ↔
      ({ schema_id := sid, meta_attr_schema_id := mid } :
        SchemaMetaAttributeMapping) ∈ flat := by
  rw [List.any_eq_true]
  constructor
  · rintro ⟨f, hf, hp⟩
    simp only [Bool.and_eq_true, beq_iff_eq] at hp
    obtain ⟨h1, h2⟩ := hp
    cases f
    simp_all
  · intro hm
    exact ⟨_, hm, by simp⟩

/-- The insertion fold never removes a flat row. -/
theorem mem_addFlat_of_mem_flat {f : SchemaMetaAttributeMapping}
    (sid : Nat) {flat : List SchemaMetaAttributeMapping} (ids : List Nat)
    (h : f ∈ flat) : f ∈ addFlat sid flat ids := by
  induction ids generalizing flat with
  | nil => exact h
  | cons mid ids ih =>
    rw [addFlat_cons]
    apply ih
    split
    · exact h
    · exact List.mem_append_left _ h

/-- After the insertion fold, every processed meta-attribute id has its
flat row present. -/
theorem mem_addFlat_of_mem {sid mid : Nat} {ids : List Nat}
    (flat : List SchemaMetaAttributeMapping) (h : mid ∈ ids) :
    ({ schema_id := sid, meta_attr_schema_id := mid } :
      SchemaMetaAttributeMapping) ∈ addFlat sid flat ids := by
  induction ids generalizing flat with
  | nil => cases h
  | cons a ids ih =>
    rw [addFlat_cons]
    rcases List.mem_cons.mp h with heq | hmem
    · subst heq
      apply mem_addFlat_of_mem_flat
      split
      · next hany => exact (any_flat_iff _ _ _).mp hany
      · exact List.mem_append_right _ (by simp)
    · exact ih _ hmem

/-- When every processed id already has its flat row, the insertion fold
is the identity. -/
theorem addFlat_eq_of_all_mem {sid : Nat}
    {flat : List SchemaMetaAttributeMapping} {ids : List Nat}
    (h : ∀ mid ∈ ids,
      ({ schema_id := sid, meta_attr_schema_id := mid } :
        SchemaMetaAttributeMapping) ∈ flat) :
    addFlat sid flat ids = flat := by
  induction ids with
  | nil => rfl
  | cons a ids ih =>
    rw [addFlat_cons,
        if_pos ((any_flat_iff _ _ _).mpr (h a (by simp)))]
    exact ih (fun mid hm => h mid (by simp [hm]))

/-- The insertion fold preserves distinctness of the flat rows. -/
theorem addFlat_nodup {flat : List SchemaMetaAttributeMapping} (sid : Nat)
    (ids : List Nat) (h : flat.Nodup) : (addFlat sid flat ids).Nodup := by
  induction ids generalizing flat with
  | nil => exact h
  | cons a ids ih =>
    rw [addFlat_cons]
    apply ih
    split
    · exact h
    · next hany =>
      rw [List.nodup_append]
      refine ⟨h, by simp, fun x hx hx2 => ?_⟩
      simp only [List.mem_singleton] at hx2
      subst hx2
      exact hany ((any_flat_iff _ _ _).mpr hx)

/-- Closed form of the materializer on a persisted schema entity. -/
theorem add_meta_attribute_mappings_eq (db : DB) (sch : SchemaEntity)
    (sid : Nat) (hid : sch.id = some sid)
    (hex : schema_exists db sid = true) :
    add_meta_attribute_mappings db sch =
      ({ db with
         flat := addFlat sid db.flat (get_meta_attributes_by_schema db sch) },
       (addFlat sid db.flat (get_meta_attributes_by_schema db sch)).filter
         (fun f => f.schema_id == sid)) := by
  unfold add_meta_attribute_mappings
  simp [hid, hex]

/-- The Resolver reads only the mapping store, so changing the flat store
leaves its output unchanged. -/
theorem resolve_schema_set_flat (db : DB)
    (F : List SchemaMetaAttributeMapping) (sch : SchemaEntity) :
    get_meta_attributes_by_schema { db with flat := F } sch =
      get_meta_attributes_by_schema db sch := rfl

/-- Schema existence reads only the schema table, so changing the flat
store leaves it unchanged. -/
theorem schema_exists_set_flat (db : DB)
    (F : List SchemaMetaAttributeMapping) (sid : Nat) :
    schema_exists { db with flat := F } sid = schema_exists db sid := rfl

/-- C3: for a persisted schema, running the Bulk Materializer a second
time with no intervening mapping changes returns the identical result and
changes nothing; the result is the full current set of flat rows for the
schema, and every pre-existing flat row survives. -/
theorem materialize_idempotent {db : DB} {sch : SchemaEntity} {sid : Nat}
    {db1 : DB} {r1 : List SchemaMetaAttributeMapping}
    (hid : sch.id = some sid)
    (hex : schema_exists db sid = true)
    (h1 : add_meta_attribute_mappings db sch = (db1, r1)) :
    add_meta_attribute_mappings db1 sch = (db1, r1) ∧
    r1 = db1.flat.filter (fun f => f.schema_id == sid) ∧
    (∀ f ∈ db.flat, f ∈ db1.flat) := by
  rw [add_meta_attribute_mappings_eq db sch sid hid hex,
      Prod.mk.injEq] at h1
  obtain ⟨hdb1, hr1⟩ := h1
  have hex1 : schema_exists db1 sid = true := by
    rw [← hdb1, schema_exists_set_flat]
    exact hex
  have hres1 : get_meta_attributes_by_schema db1 sch =
      get_meta_attributes_by_schema db sch := by
    rw [← hdb1, resolve_schema_set_flat]
  have hflat1 : db1.flat =
      addFlat sid db.flat (get_meta_attributes_by_schema db sch) := by
    rw [← hdb1]
  have hstable :
      addFlat sid db1.flat (get_meta_attributes_by_schema db1 sch) =
        db1.flat := by
    rw [hres1, hflat1]
    exact addFlat_eq_of_all_mem (fun mid hm => mem_addFlat_of_mem _ hm)
  refine ⟨?_, ?_, ?_⟩
  · rw [add_meta_attribute_mappings_eq db1 sch sid hid hex1, hstable,
        Prod.mk.injEq]
    exact ⟨rfl, by rw [← hr1, hflat1]⟩
  · rw [← hr1, hflat1]
  · intro f hf
    rw [hflat1]
    exact mem_addFlat_of_mem_flat _ _ hf

/-- Concrete instantiation of `materialize_idempotent` on the test
store. -/
theorem materialize_idempotent_witness :
    add_meta_attribute_mappings witnessSchemaDB1 witnessSchemaEntity =
      (witnessSchemaDB1, witnessFlatRows) ∧
    witnessFlatRows =
      witnessSchemaDB1.flat.filter (fun f => f.schema_id == 21) ∧
    (∀ f ∈ witnessSchemaDB.flat, f ∈ witnessSchemaDB1.flat) :=
  @materialize_idempotent witnessSchemaDB witnessSchemaEntity 21
    witnessSchemaDB1 witnessFlatRows rfl rfl rfl

/-- C4: for a persisted schema over a duplicate-free flat store, the Bulk
Materializer produces a duplicate-free result with exactly one flat row
per meta-attribute schema id the Resolver surfaced, however many raw
mapping rows carry that id. -/
theorem materialize_dedup {db : DB} {sch : SchemaEntity} {sid : Nat}
    {db1 : DB} {r1 : List SchemaMetaAttributeMapping}
    (hid : sch.id = some sid)
    (hex : schema_exists db sid = true)
    (hnd : db.flat.Nodup)
    (h1 : add_meta_attribute_mappings db sch = (db1, r1)) :
    r1.Nodup ∧
    ∀ mid ∈ get_meta_attributes_by_schema db sch,
      (r1.filter (fun f => f.meta_attr_schema_id == mid)).length = 1 := by
  rw [add_meta_attribute_mappings_eq db sch sid hid hex,
      Prod.mk.injEq] at h1
  obtain ⟨hdb1, hr1⟩ := h1
  have hr1nodup : r1.Nodup := by
    rw [← hr1]
    exact (addFlat_nodup sid _ hnd).filter _
  refine ⟨hr1nodup, fun mid hmid => ?_⟩
  have hmem : ({ schema_id := sid, meta_attr_schema_id := mid } :
      SchemaMetaAttributeMapping) ∈ r1 := by
    rw [← hr1, List.mem_filter]
    exact ⟨mem_addFlat_of_mem _ hmid, by simp⟩
  have hall : ∀ f ∈ r1, f.schema_id = sid := by
    intro f hf
    rw [← hr1, List.mem_filter] at hf
    simpa using hf.2
  have hcongr : r1.filter (fun f => f.meta_attr_schema_id == mid) =
      r1.filter
        (fun f => f == { schema_id := sid, meta_attr_schema_id := mid }) := by
    apply List.filter_congr
    intro f hf
    have hfs := hall f hf
    rw [Bool.eq_iff_iff, beq_iff_eq, beq_iff_eq]
    obtain ⟨fs, fm⟩ := f
    simp only [SchemaMetaAttributeMapping.mk.injEq]
    simp only at hfs
    simp [hfs]
  rw [hcongr]
  have hcnt : (r1.filter
      (fun f => f ==
        ({ schema_id := sid, meta_attr_schema_id := mid } :
          SchemaMetaAttributeMapping))).length =
      r1.count { schema_id := sid, meta_attr_schema_id := mid } := by
    rw [List.count_eq_countP, List.countP_eq_length_filter]
  rw [hcnt]
  have hle := List.nodup_iff_count_le_one.mp hr1nodup
    ({ schema_id := sid, meta_attr_schema_id := mid } :
      SchemaMetaAttributeMapping)
  have hge := List.count_pos_iff.mpr hmem
  omega

/-- Concrete instantiation of `materialize_dedup`: schema 32 is mapped
both to NamespaceA and to SourceA1, yet yields one flat row. -/
theorem materialize_dedup_witness :
    dupFlatRows.Nodup ∧
    ∀ mid ∈ get_meta_attributes_by_schema dupDB witnessSchemaEntity,
      (dupFlatRows.filter
        (fun f => f.meta_attr_schema_id == mid)).length = 1 :=
  @materialize_dedup dupDB witnessSchemaEntity 21 dupDB1 dupFlatRows
    rfl rfl (by decide) rfl

end Schematizer
